import Mathlib

/-!
Shallow embedding of the `tts-mcp` repository (package `tts_mcp`):
the audio post-processing pipeline (`audio_processor.py`), the voice
catalog (`voices.py`), the engine lifecycle manager (`tts_engine.py`),
and the `speak` branch of the MCP tool-call handler (`server.py`).

Modelling conventions:
* An audio buffer (numpy 1-D float array) is a length together with a
  total valuation `ℕ → ℚ`; entries at or beyond `len` are irrelevant
  junk (a stage that fixes the length writes `0` there).  Float samples
  are modelled by exact rationals; float literals such as `0.02`, `1.2`,
  `0.92`, `0.95` are modelled by their ideal rational values.
* `np.tanh` and `np.sin` are transcendental black boxes; they enter the
  pipeline as abstract function parameters `np_tanh np_sin : ℚ → ℚ`,
  exactly as the external synthesizer model is a black box.  `np.pi` is
  the exact rational value of the IEEE-754 double numpy uses.
* Python exceptions are modelled with `Except String` carrying the
  exception message; a caught exception is a pattern match on `.error`.
* The external synthesizer handle (`KittenTTS`, whose construction may
  fail and whose `generate` may raise) and the platform playback
  collaborator (`play_audio`, which catches everything internally and
  returns a success/message dict) are oracles supplied as parameters.
* Python `str` text is Lean `String`; `text.split()` and the
  `not text.strip()` emptiness test are modelled on the character list
  (`String.data`) with `Char.isWhitespace`, matching the Python
  whitespace-splitting semantics on the ASCII whitespace this server
  handles.
-/

/-- A mono PCM audio buffer: a numpy 1-D array of float samples. -/
structure Buf where
  len : ℕ
  val : ℕ → ℚ

/-- `np.linspace a b num` evaluated at index `i`:
for `num ≥ 2` the value is `a + i*(b-a)/(num-1)` (endpoints included);
`np.linspace a b 1 = [a]`. -/
def linspaceVal (a b : ℚ) (num i : ℕ) : ℚ :=
  if num ≤ 1 then a else a + (i : ℚ) * (b - a) / ((num : ℚ) - 1)

/-- `np.arange 0 stop step` for nonzero `step`: the values
`0, step, 2*step, …` of length `⌈stop/step⌉` clamped to `0`
(so empty for negative `step` when `stop > 0`). -/
def arange (stop step : ℚ) : List ℚ :=
  (List.range (⌈stop / step⌉).toNat).map (fun (k : ℕ) => (k : ℚ) * step)

/-- The nearest-index selection pattern that appears verbatim in both
`speed_up_audio` and `make_robotic` (`audio_processor.py`):
`indices = np.arange(0, len(audio), step)`,
`indices = indices[indices < len(audio)].astype(int)`.
`astype(int)` truncates toward zero, which is `⌊·⌋` on the nonnegative
values `np.arange` produces for a positive step. -/
def nearest_indices (n : ℕ) (step : ℚ) : List ℕ :=
  ((arange (n : ℚ) step).filter (fun x => decide (x < (n : ℚ)))).map
    (fun x => (⌊x⌋).toNat)

/-- `audio_processor.smooth_audio`: fade-in over the first
`int(0.02*sample_rate)` samples (applied only when the buffer is strictly
longer than that window), fade-out over the last `int(0.05*sample_rate)`
samples (again only when strictly longer), then `int(0.1*sample_rate)`
samples of appended silence. -/
def smooth_audio (a : Buf) (sample_rate : ℕ) : Buf :=
  let fade_in_samples := (⌊(2 : ℚ) / 100 * (sample_rate : ℚ)⌋).toNat
  let fade_out_samples := (⌊(5 : ℚ) / 100 * (sample_rate : ℚ)⌋).toNat
  let silence_samples := (⌊(1 : ℚ) / 10 * (sample_rate : ℚ)⌋).toNat
  let faded_in : ℕ → ℚ := fun i =>
    if fade_in_samples < a.len ∧ i < fade_in_samples then
      a.val i * linspaceVal 0 1 fade_in_samples i
    else a.val i
  let faded_out : ℕ → ℚ := fun i =>
    if fade_out_samples < a.len ∧ a.len - fade_out_samples ≤ i then
      faded_in i * linspaceVal 1 0 fade_out_samples (i - (a.len - fade_out_samples))
    else faded_in i
  ⟨a.len + silence_samples, fun i => if i < a.len then faded_out i else 0⟩

/-- `audio_processor.speed_up_audio`: nearest-index resampling with step
`speed_factor`.  `np.arange` raises `ZeroDivisionError` on a zero step;
any other step yields the selected samples (an empty selection for a
negative step). -/
def speed_up_audio (a : Buf) (speed_factor : ℚ) : Except String Buf :=
  if speed_factor = 0 then .error "division by zero"
  else
    let indices := nearest_indices a.len speed_factor
    .ok ⟨indices.length, fun k => a.val (indices.getD k 0)⟩

/-- The exact rational value of the IEEE-754 double `np.pi`. -/
def npPi : ℚ := 884279719003555 / 281474976710656

/-- `np.interp p xp fp` with `xp = np.arange n` and `fp` the samples of
`a` (with `n = a.len`): clamped linear interpolation at position `p`. -/
def interp1 (a : Buf) (p : ℚ) : ℚ :=
  if p ≤ 0 then a.val 0
  else if ((a.len : ℚ) - 1) ≤ p then a.val (a.len - 1)
  else a.val (⌊p⌋).toNat +
    (p - (⌊p⌋ : ℚ)) * (a.val ((⌊p⌋).toNat + 1) - a.val (⌊p⌋).toNat)

/-- The closing normalization step of `make_robotic`
(`max_val = np.max(np.abs(final)); if max_val > 0: final = final / max_val * 0.95`):
scale the buffer so its peak absolute amplitude becomes `0.95` whenever
that peak is positive. -/
def normalize_95 (m : ℕ) (final : ℕ → ℚ) : Buf :=
  let max_val := ((List.range m).map (fun i => |final i|)).foldr max 0
  if 0 < max_val then ⟨m, fun i => final i / max_val * (95 / 100)⟩
  else ⟨m, final⟩

/-- `audio_processor.make_robotic`: pitch shift by nearest-index
resampling at ratio `0.92`, soft clip `np.tanh(pitched*1.2)*0.8`, ring
modulation by `0.85 + 0.1*np.sin(2π·600·t)`, 50/50 blend with the input
resampled by `np.interp` over `np.linspace 0 (len-1) m`, then
`normalize_95`.  On an empty input numpy raises (empty `np.interp`
sample points / empty `np.max`), modelled as the `.error` case. -/
def make_robotic (np_tanh np_sin : ℚ → ℚ) (a : Buf) (sample_rate : ℕ) :
    Except String Buf :=
  let indices := nearest_indices a.len (92 / 100)
  let m := indices.length
  let pitched : ℕ → ℚ := fun i => a.val (indices.getD i 0)
  let clipped : ℕ → ℚ := fun i => np_tanh (pitched i * (12 / 10)) * (8 / 10)
  let modulated : ℕ → ℚ := fun i =>
    clipped i * (85 / 100 + (1 / 10) *
      np_sin (2 * npPi * 600 * ((i : ℚ) / (sample_rate : ℚ))))
  let original_resized : ℕ → ℚ := fun i =>
    interp1 a (linspaceVal 0 ((a.len : ℚ) - 1) m i)
  let final : ℕ → ℚ := fun i =>
    (1 / 2) * original_resized i + (1 / 2) * modulated i
  if m = 0 then .error "array of sample points is empty"
  else .ok (normalize_95 m final)

/-- `audio_processor.process_audio`: smoothing, then the optional
robotic effect, then speed adjustment when `speed_factor != 1.0`.
(The `isinstance`/`ndim > 1` coercions at the top concern non-array and
multi-channel input; `Buf` is already a mono array.) -/
def process_audio (np_tanh np_sin : ℚ → ℚ) (audio : Buf) (sample_rate : ℕ)
    (apply_smoothing apply_robotic : Bool) (speed_factor : ℚ) :
    Except String Buf :=
  let a1 := if apply_smoothing then smooth_audio audio sample_rate else audio
  match (if apply_robotic then make_robotic np_tanh np_sin a1 sample_rate
         else .ok a1) with
  | .error e => .error e
  | .ok a2 =>
    if speed_factor ≠ 1 then speed_up_audio a2 speed_factor else .ok a2

/-- Peak absolute amplitude of a buffer (`np.max(np.abs(buffer))`,
with value `0` for an empty buffer). -/
def peakAbs (a : Buf) : ℚ :=
  ((List.range a.len).map (fun i => |a.val i|)).foldr max 0

/-- `voices.Voice`. -/
structure Voice where
  id : String
  gender : String
  description : String

/-- `voices.DEFAULT_VOICE`. -/
def DEFAULT_VOICE : String := "expr-voice-2-f"

/-- `voices.AVAILABLE_VOICES`. -/
def AVAILABLE_VOICES : List Voice :=
  [⟨"expr-voice-2-m", "male", "Expression voice 2 - Male"⟩,
   ⟨"expr-voice-2-f", "female", "Expression voice 2 - Female"⟩,
   ⟨"expr-voice-3-m", "male", "Expression voice 3 - Male"⟩,
   ⟨"expr-voice-3-f", "female", "Expression voice 3 - Female"⟩,
   ⟨"expr-voice-4-m", "male", "Expression voice 4 - Male"⟩,
   ⟨"expr-voice-4-f", "female", "Expression voice 4 - Female"⟩,
   ⟨"expr-voice-5-m", "male", "Expression voice 5 - Male"⟩,
   ⟨"expr-voice-5-f", "female", "Expression voice 5 - Female"⟩]

/-- `voices.get_voice_ids`. -/
def get_voice_ids : List String := AVAILABLE_VOICES.map (fun v => v.id)

/-- `voices.is_valid_voice`. -/
def is_valid_voice (voice_id : String) : Bool :=
  get_voice_ids.contains voice_id

/-- `server.count_words`: `len(text.split())`, the number of maximal
runs of non-whitespace characters.  Computed by a fold carrying
(count so far, currently inside a word). -/
def count_words (text : String) : ℕ :=
  (text.data.foldl
    (fun (st : ℕ × Bool) c =>
      if c.isWhitespace then (st.1, false)
      else if st.2 then st else (st.1 + 1, true))
    (0, false)).1

/-- Python `not text.strip()`: stripping leading and trailing whitespace
leaves the empty string exactly when every character is whitespace.
(`strip` occurs in this code base only under this emptiness test.) -/
def strip_empty (text : String) : Bool :=
  text.data.all (fun c => c.isWhitespace)

/-- The synthesizer handle (`KittenTTS` instance): its `generate` either
returns a raw buffer or raises (message carried by `.error`). -/
structure Model where
  generate : String → String → Except String Buf

/-- The mutable class-level state of `tts_engine.TTSEngine`:
`_initialized` and `_model`.  (`_lock` serializes access; in this
sequential embedding each operation runs atomically.) -/
structure TTSEngine where
  initialized : Bool
  model : Option Model

/-- Result dict of `TTSEngine.speak` / `audio_player.play_audio`. -/
structure SpeakResult where
  success : Bool
  message : String

/-- `TTSEngine.initialize` (named `initialize_engine` here because
`initialize` is a Lean keyword): a no-op when already initialized; otherwise
the outcome of constructing `KittenTTS` (the oracle `init_outcome`)
either installs the model handle or — on `ImportError` or any other
exception, both caught — leaves `_initialized = False` with `_model`
untouched. -/
def initialize_engine (e : TTSEngine) (init_outcome : Except String Model) :
    TTSEngine :=
  if e.initialized then e
  else
    match init_outcome with
    | .ok m => ⟨true, some m⟩
    | .error _ => ⟨false, e.model⟩

/-- `TTSEngine.cleanup`: a no-op when not initialized; otherwise drops
the model handle and resets `_initialized`. -/
def cleanup (e : TTSEngine) : TTSEngine :=
  if ¬ e.initialized then e else ⟨false, none⟩

/-- `TTSEngine.generate_speech`: initialize if needed, then validate the
voice, then the emptiness of the text, then require a model handle,
then run the synthesizer and the post-processing pipeline.  Returns the
engine state after the call together with the produced audio or the
message of the raised exception. -/
def generate_speech (e : TTSEngine) (init_outcome : Except String Model)
    (np_tanh np_sin : ℚ → ℚ) (text voice : String)
    (apply_smoothing apply_robotic : Bool) (speed_factor : ℚ) :
    TTSEngine × Except String Buf :=
  let e1 := if ¬ e.initialized then initialize_engine e init_outcome else e
  if ¬ is_valid_voice voice then (e1, .error ("Invalid voice: " ++ voice))
  else if strip_empty text then (e1, .error "Text cannot be empty")
  else
    match e1.model with
    | none => (e1, .error "TTS model not initialized")
    | some m =>
      match m.generate text voice with
      | .error msg => (e1, .error msg)
      | .ok audio =>
        match process_audio np_tanh np_sin audio 24000
            apply_smoothing apply_robotic speed_factor with
        | .error msg => (e1, .error msg)
        | .ok out => (e1, .ok out)

/-- `TTSEngine.speak`: wraps `generate_speech` and optional playback in
a catch-all; any raised exception becomes a structured failure result.
`play_audio` itself catches everything internally and returns a
success/message dict, modelled by the oracle being a total function.
(The `audio_length` field of the non-playback result dict is dropped.) -/
def speak (e : TTSEngine) (init_outcome : Except String Model)
    (play_audio : Buf → SpeakResult) (np_tanh np_sin : ℚ → ℚ)
    (text voice : String) (play : Bool)
    (apply_smoothing apply_robotic : Bool) (speed_factor : ℚ) :
    TTSEngine × SpeakResult :=
  match generate_speech e init_outcome np_tanh np_sin text voice
      apply_smoothing apply_robotic speed_factor with
  | (e1, .error msg) => (e1, ⟨false, "Speech generation failed: " ++ msg⟩)
  | (e1, .ok audio) =>
    if play then (e1, play_audio audio)
    else (e1, ⟨true, "Speech generated successfully (playback disabled)"⟩)

/-- The `speak` branch of `server.call_tool`: word-count limit, then
emptiness, then the `engine._initialized` readiness check, then
`engine.speak` with `play=True`, `apply_smoothing=True`, the requested
robotic flag and speed.  The result is the text of the returned
`TextContent`.  (The surrounding `try/except` catches exceptions; every
modelled operation returns normally, so the handler branch is dead in
the model.) -/
def call_tool_speak (e : TTSEngine) (init_outcome : Except String Model)
    (play_audio : Buf → SpeakResult) (np_tanh np_sin : ℚ → ℚ)
    (text voice : String) (robotic : Bool) (speed : ℚ) :
    TTSEngine × String :=
  let word_count := count_words text
  if 100 < word_count then
    (e, "Error: Text exceeds 100 words limit (provided: " ++
      toString word_count ++ " words)")
  else if strip_empty text then (e, "Error: Text cannot be empty")
  else if ¬ e.initialized then
    (e, "Error: TTS engine is not available. Please check that espeak is installed and accessible.")
  else
    match speak e init_outcome play_audio np_tanh np_sin text voice
        true true robotic speed with
    | (e1, r) =>
      (e1, "TTS " ++ (if r.success then "Success" else "Failed") ++ ": " ++
        r.message)


/-! ### Helper lemmas -/

lemma arange_length (stop step : ℚ) :
    (arange stop step).length = (⌈stop / step⌉).toNat := by
  rw [arange, List.length_map, List.length_range]

lemma arange_getD (stop step : ℚ) (k : ℕ) (hk : k < (⌈stop / step⌉).toNat) :
    (arange stop step).getD k 0 = (k : ℚ) * step := by
  rw [List.getD_eq_getElem _ _ (by rw [arange_length]; exact hk)]
  simp [arange]

lemma filter_lt_arange_eq (n : ℕ) (s : ℚ) (hs : 0 < s) :
    (arange (n : ℚ) s).filter (fun x => decide (x < (n : ℚ))) = arange (n : ℚ) s := by
  rw [List.filter_eq_self]
  intro x hx
  rw [arange] at hx
  obtain ⟨k, hk, rfl⟩ := List.mem_map.mp hx
  have hk2 : k < (⌈(n : ℚ) / s⌉).toNat := List.mem_range.mp hk
  simp only [decide_eq_true_eq]
  have h1 : ((k : ℤ)) < ⌈(n : ℚ) / s⌉ := by omega
  have h2 : ((k : ℚ)) + 1 ≤ (⌈(n : ℚ) / s⌉ : ℚ) := by exact_mod_cast h1
  have h3 : (⌈(n : ℚ) / s⌉ : ℚ) < (n : ℚ) / s + 1 := Int.ceil_lt_add_one _
  have h4 : (k : ℚ) < (n : ℚ) / s := by linarith
  have h5 : (k : ℚ) * s < (n : ℚ) / s * s := mul_lt_mul_of_pos_right h4 hs
  rwa [div_mul_cancel₀ _ (ne_of_gt hs)] at h5

lemma nearest_indices_length (n : ℕ) (s : ℚ) (hs : 0 < s) :
    (nearest_indices n s).length = (⌈(n : ℚ) / s⌉).toNat := by
  unfold nearest_indices
  rw [filter_lt_arange_eq n s hs, List.length_map, arange_length]

lemma nearest_indices_getD (n : ℕ) (s : ℚ) (hs : 0 < s) (k : ℕ)
    (hk : k < (⌈(n : ℚ) / s⌉).toNat) :
    (nearest_indices n s).getD k 0 = (⌊(k : ℚ) * s⌋).toNat := by
  unfold nearest_indices
  rw [filter_lt_arange_eq n s hs]
  rw [List.getD_eq_getElem _ _ (by rw [List.length_map, arange_length]; exact hk)]
  rw [List.getElem_map]
  have hb : k < (arange (n : ℚ) s).length := by rw [arange_length]; exact hk
  have harr : (arange (n : ℚ) s)[k] = (arange (n : ℚ) s).getD k 0 :=
    (List.getD_eq_getElem _ _ hb).symm
  rw [harr, arange_getD _ _ _ hk]

lemma le_foldr_max (l : List ℚ) (x : ℚ) (hx : x ∈ l) : x ≤ l.foldr max 0 := by
  induction l with
  | nil => cases hx
  | cons a t ih =>
    rcases List.mem_cons.mp hx with h | h
    · subst h; exact le_max_left _ _
    · exact le_trans (ih h) (le_max_right _ _)

lemma foldr_max_nonneg (l : List ℚ) : 0 ≤ l.foldr max 0 := by
  induction l with
  | nil => simp
  | cons a t ih => exact le_trans ih (le_max_right _ _)

lemma foldr_max_map_mul (c : ℚ) (hc : 0 ≤ c) (l : List ℚ) :
    ((l.map (fun x => c * x)).foldr max 0) = c * l.foldr max 0 := by
  induction l with
  | nil => simp
  | cons a t ih =>
    simp only [List.map_cons, List.foldr_cons, ih]
    exact (mul_max_of_nonneg _ _ hc).symm

lemma append_ne_empty_left (a b : String) (ha : a ≠ "") : a ++ b ≠ "" := by
  intro h
  apply ha
  have hd : a.data ++ b.data = ([] : List Char) := by
    have := congrArg String.data h
    simpa [String.data_append] using this
  have : a.data = [] := List.append_eq_nil.mp hd |>.1
  exact congrArg String.mk this

lemma process_audio_smoothing_only (np_tanh np_sin : ℚ → ℚ) (a : Buf) (sr : ℕ) :
    process_audio np_tanh np_sin a sr true false 1 = .ok (smooth_audio a sr) := rfl

lemma process_audio_all_off (np_tanh np_sin : ℚ → ℚ) (a : Buf) (sr : ℕ) :
    process_audio np_tanh np_sin a sr false false 1 = .ok a := rfl

lemma speed_up_audio_run (a : Buf) (sp : ℚ) (hs : sp ≠ 0) :
    speed_up_audio a sp =
      .ok ⟨(nearest_indices a.len sp).length,
           fun k => a.val ((nearest_indices a.len sp).getD k 0)⟩ := by
  unfold speed_up_audio
  rw [if_neg hs]

lemma fade_in_24000 : ((⌊(2 : ℚ) / 100 * ((24000 : ℕ) : ℚ)⌋).toNat) = 480 := by
  rw [show (⌊(2 : ℚ) / 100 * ((24000 : ℕ) : ℚ)⌋) = (480 : ℤ) by norm_num]
  rfl

lemma fade_out_24000 : ((⌊(5 : ℚ) / 100 * ((24000 : ℕ) : ℚ)⌋).toNat) = 1200 := by
  rw [show (⌊(5 : ℚ) / 100 * ((24000 : ℕ) : ℚ)⌋) = (1200 : ℤ) by norm_num]
  rfl

lemma silence_24000 : ((⌊(1 : ℚ) / 10 * ((24000 : ℕ) : ℚ)⌋).toNat) = 2400 := by
  rw [show (⌊(1 : ℚ) / 10 * ((24000 : ℕ) : ℚ)⌋) = (2400 : ℤ) by norm_num]
  rfl

lemma smooth_audio_24000 (a : Buf) :
    (smooth_audio a 24000).len = a.len + 2400 ∧
    ∀ i : ℕ,
      (i < a.len → (smooth_audio a 24000).val i =
        a.val i * (if 480 < a.len ∧ i < 480 then (i : ℚ) / 479 else 1) *
          (if 1200 < a.len ∧ a.len - 1200 ≤ i then
            ((a.len : ℚ) - 1 - (i : ℚ)) / 1199 else 1)) ∧
      (a.len ≤ i → (smooth_audio a 24000).val i = 0) := by
  simp only [smooth_audio, fade_in_24000, fade_out_24000, silence_24000]
  refine ⟨trivial, fun i => ⟨fun hi => ?_, fun hi => ?_⟩⟩
  · rw [if_pos hi]
    by_cases h2 : 1200 < a.len ∧ a.len - 1200 ≤ i
    · have h1200 : (1200 : ℕ) ≤ a.len := le_of_lt h2.1
      have hcast : ((i - (a.len - 1200) : ℕ) : ℚ) =
          (i : ℚ) - ((a.len : ℚ) - 1200) := by
        push_cast [Nat.cast_sub h1200, Nat.cast_sub h2.2]
        ring
      rw [if_pos h2, if_pos h2]
      by_cases h1 : 480 < a.len ∧ i < 480
      · rw [if_pos h1, if_pos h1]
        simp only [linspaceVal]
        rw [if_neg (show ¬ (480 : ℕ) ≤ 1 by norm_num),
            if_neg (show ¬ (1200 : ℕ) ≤ 1 by norm_num), hcast]
        push_cast
        field_simp
        ring
      · rw [if_neg h1, if_neg h1]
        simp only [linspaceVal]
        rw [if_neg (show ¬ (1200 : ℕ) ≤ 1 by norm_num), hcast]
        push_cast
        field_simp
        ring
    · rw [if_neg h2, if_neg h2]
      by_cases h1 : 480 < a.len ∧ i < 480
      · rw [if_pos h1, if_pos h1]
        simp only [linspaceVal]
        rw [if_neg (show ¬ (480 : ℕ) ≤ 1 by norm_num)]
        push_cast
        ring
      · rw [if_neg h1, if_neg h1]
        ring
  · rw [if_neg (show ¬ i < a.len by omega)]

lemma cleanup_cleanup (e : TTSEngine) : cleanup (cleanup e) = cleanup e := by
  rcases e with ⟨i, mo⟩
  cases i <;> rfl

lemma cleanup_not_ready (e : TTSEngine) : (cleanup e).initialized = false := by
  rcases e with ⟨i, mo⟩
  cases i <;> rfl

lemma generate_speech_ready_error (e : TTSEngine) (m : Model)
    (io : Except String Model) (tt ss : ℚ → ℚ) (text voice : String)
    (sm rb : Bool) (sp : ℚ) (msg : String)
    (hinit : e.initialized = true) (hm : e.model = some m)
    (hv : is_valid_voice voice = true) (ht : strip_empty text = false)
    (hgen : m.generate text voice = .error msg) :
    generate_speech e io tt ss text voice sm rb sp = (e, .error msg) := by
  simp [generate_speech, hinit, hm, hv, ht, hgen]

lemma generate_speech_ready_ok (e : TTSEngine) (m : Model)
    (io : Except String Model) (tt ss : ℚ → ℚ) (text voice : String)
    (sm rb : Bool) (sp : ℚ) (audio out : Buf)
    (hinit : e.initialized = true) (hm : e.model = some m)
    (hv : is_valid_voice voice = true) (ht : strip_empty text = false)
    (hgen : m.generate text voice = .ok audio)
    (hproc : process_audio tt ss audio 24000 sm rb sp = .ok out) :
    generate_speech e io tt ss text voice sm rb sp = (e, .ok out) := by
  simp [generate_speech, hinit, hm, hv, ht, hgen, hproc]

lemma generate_speech_ready_invalid_voice (e : TTSEngine)
    (io : Except String Model) (tt ss : ℚ → ℚ) (text voice : String)
    (sm rb : Bool) (sp : ℚ)
    (hinit : e.initialized = true) (hv : is_valid_voice voice = false) :
    generate_speech e io tt ss text voice sm rb sp =
      (e, .error ("Invalid voice: " ++ voice)) := by
  simp [generate_speech, hinit, hv]

lemma generate_speech_init_ok (e : TTSEngine) (m : Model)
    (tt ss : ℚ → ℚ) (text voice : String) (sm rb : Bool) (sp : ℚ)
    (audio out : Buf)
    (hinit : e.initialized = false)
    (hv : is_valid_voice voice = true) (ht : strip_empty text = false)
    (hgen : m.generate text voice = .ok audio)
    (hproc : process_audio tt ss audio 24000 sm rb sp = .ok out) :
    generate_speech e (.ok m) tt ss text voice sm rb sp =
      (⟨true, some m⟩, .ok out) := by
  simp [generate_speech, initialize_engine, hinit, hv, ht, hgen, hproc]

lemma speak_eq_of_generate_error (e e1 : TTSEngine)
    (io : Except String Model) (pa : Buf → SpeakResult) (tt ss : ℚ → ℚ)
    (text voice : String) (pl sm rb : Bool) (sp : ℚ) (msg : String)
    (h : generate_speech e io tt ss text voice sm rb sp = (e1, .error msg)) :
    speak e io pa tt ss text voice pl sm rb sp =
      (e1, ⟨false, "Speech generation failed: " ++ msg⟩) := by
  unfold speak
  rw [h]

lemma speak_eq_of_generate_ok_noplay (e e1 : TTSEngine)
    (io : Except String Model) (pa : Buf → SpeakResult) (tt ss : ℚ → ℚ)
    (text voice : String) (sm rb : Bool) (sp : ℚ) (audio : Buf)
    (h : generate_speech e io tt ss text voice sm rb sp = (e1, .ok audio)) :
    speak e io pa tt ss text voice false sm rb sp =
      (e1, ⟨true, "Speech generated successfully (playback disabled)"⟩) := by
  unfold speak
  rw [h]
  rfl

lemma speak_eq_of_generate_ok_play (e e1 : TTSEngine)
    (io : Except String Model) (pa : Buf → SpeakResult) (tt ss : ℚ → ℚ)
    (text voice : String) (sm rb : Bool) (sp : ℚ) (audio : Buf)
    (h : generate_speech e io tt ss text voice sm rb sp = (e1, .ok audio)) :
    speak e io pa tt ss text voice true sm rb sp = (e1, pa audio) := by
  unfold speak
  rw [h]
  rfl

/-! ### Claims -/

/-- Claim C4, counterexample to the claim as stated: on a buffer of
exactly 480 samples (= the 20 ms fade-in window at 24000 Hz) the claim
says the fade-in is applied (the buffer is not *shorter* than the
window), so sample 0 would be scaled by the ramp value 0, giving 0; the
code skips the fade whenever the buffer is not strictly *longer* than
the window (`if len(audio) > fade_in_samples`), leaving sample 0 at its
input value 1. -/
theorem claim_C4_counterexample :
    (smooth_audio ⟨480, fun _ => 1⟩ 24000).val 0 = 1 ∧
    ¬ (smooth_audio ⟨480, fun _ => 1⟩ 24000).val 0 =
        1 * ((0 : ℚ) / 479) := by
  have h0 := ((smooth_audio_24000 ⟨480, fun _ => 1⟩).2 0).1 (by norm_num)
  constructor
  · rw [h0]
    norm_num
  · rw [h0]
    norm_num

/-- Claim C4 (amended): at the fixed 24000 Hz rate, smoothing appends
2400 zero samples (100 ms) and, inside the original range, multiplies
sample `i` by a linear fade-in factor `i/479` on the first 480 samples
(20 ms) — applied only when the buffer is strictly longer than 480
samples, skipped unchanged otherwise — and by a linear fade-out factor
`(len-1-i)/1199` on the last 1200 samples (50 ms) — applied only when
the buffer is strictly longer than 1200 samples. -/
theorem claim_C4_amended (a : Buf) (i : ℕ) :
    (smooth_audio a 24000).len = a.len + 2400 ∧
    (i < a.len → (smooth_audio a 24000).val i =
      a.val i * (if 480 < a.len ∧ i < 480 then (i : ℚ) / 479 else 1) *
        (if 1200 < a.len ∧ a.len - 1200 ≤ i then
          ((a.len : ℚ) - 1 - (i : ℚ)) / 1199 else 1)) ∧
    (a.len ≤ i → (smooth_audio a 24000).val i = 0) :=
  ⟨(smooth_audio_24000 a).1, ((smooth_audio_24000 a).2 i).1,
   ((smooth_audio_24000 a).2 i).2⟩

/-- Witness for C4 on a concrete 1300-sample constant buffer:
total length 3700, sample 200 lies in both fade windows
(factor `200/479 · 1099/1199`), sample 1500 lies in the appended
silence. -/
theorem claim_C4_amended_witness :
    (smooth_audio ⟨1300, fun _ => 2⟩ 24000).len = 3700 ∧
    (smooth_audio ⟨1300, fun _ => 2⟩ 24000).val 200 =
      2 * ((200 : ℚ) / 479) * (1099 / 1199) ∧
    (smooth_audio ⟨1300, fun _ => 2⟩ 24000).val 1500 = 0 := by
  have h1 := claim_C4_amended ⟨1300, fun _ => 2⟩ 200
  have h2 := claim_C4_amended ⟨1300, fun _ => 2⟩ 1500
  refine ⟨by rw [h1.1], ?_, h2.2.2 (by norm_num)⟩
  have hv := h1.2.1 (by norm_num)
  rw [hv]
  norm_num

/-- Claim C5, counterexample to the claim as stated: for the
24000-sample input the claim says the *last 1200 samples* of the
26400-sample output ramp 1 to 0, so on an all-ones input sample 25200
(the first of the last 1200) would be `1·1 = 1`; the fade-out of the code is
applied before the 2400 silence samples are appended, so sample 25200
lies in the appended silence and is 0. -/
theorem claim_C5_counterexample :
    process_audio (fun x => x) (fun x => x) ⟨24000, fun _ => 1⟩ 24000
        true false 1 =
      .ok (smooth_audio ⟨24000, fun _ => 1⟩ 24000) ∧
    (smooth_audio ⟨24000, fun _ => 1⟩ 24000).len = 26400 ∧
    (smooth_audio ⟨24000, fun _ => 1⟩ 24000).val 25200 = 0 ∧
    (0 : ℚ) ≠ 1 := by
  refine ⟨process_audio_smoothing_only _ _ _ _, ?_, ?_, by norm_num⟩
  · rw [(smooth_audio_24000 _).1]
  · exact ((smooth_audio_24000 _).2 25200).2 (by norm_num)

/-- Claim C5 (amended): a 24000-sample input processed with smoothing
on, distortion off and speed 1.0 yields a 26400-sample buffer whose
first 480 samples are scaled by a factor ramping 0→1 (`i/479`), whose
samples 22800–23999 (the last 1200 samples *before* the appended
padding) are scaled by a factor ramping 1→0 (`1 - j/1199`), and whose
final 2400 samples are zero. -/
theorem claim_C5_amended (tt ss : ℚ → ℚ) (a : Buf) (h : a.len = 24000) :
    ∃ o, process_audio tt ss a 24000 true false 1 = .ok o ∧
      o.len = 26400 ∧
      (∀ i, i < 480 → o.val i = a.val i * ((i : ℚ) / 479)) ∧
      (∀ j, j < 1200 →
        o.val (22800 + j) = a.val (22800 + j) * (1 - (j : ℚ) / 1199)) ∧
      (∀ i, 24000 ≤ i → o.val i = 0) := by
  refine ⟨smooth_audio a 24000, process_audio_smoothing_only tt ss a 24000,
    ?_, ?_, ?_, ?_⟩
  · rw [(smooth_audio_24000 a).1, h]
  · intro i hi
    have hv := ((smooth_audio_24000 a).2 i).1 (by omega)
    rw [hv, if_pos (show 480 < a.len ∧ i < 480 from ⟨by omega, hi⟩),
        if_neg (show ¬ (1200 < a.len ∧ a.len - 1200 ≤ i) by omega)]
    ring
  · intro j hj
    have hv := ((smooth_audio_24000 a).2 (22800 + j)).1 (by omega)
    rw [hv, if_neg (show ¬ (480 < a.len ∧ 22800 + j < 480) by omega),
        if_pos (show 1200 < a.len ∧ a.len - 1200 ≤ 22800 + j
          from ⟨by omega, by omega⟩)]
    have hcast : ((a.len : ℚ) - 1 - ((22800 + j : ℕ) : ℚ)) / 1199 =
        1 - (j : ℚ) / 1199 := by
      rw [h]
      push_cast
      ring
    rw [hcast]
    ring
  · intro i hi
    exact ((smooth_audio_24000 a).2 i).2 (by omega)

/-- Witness for C5 at the all-ones 24000-sample buffer. -/
theorem claim_C5_amended_witness :
    ∃ o, process_audio (fun x => x) (fun x => x) ⟨24000, fun _ => 1⟩
        24000 true false 1 = .ok o ∧
      o.len = 26400 ∧
      (∀ i, i < 480 → o.val i = (1 : ℚ) * ((i : ℚ) / 479)) ∧
      (∀ j, j < 1200 →
        o.val (22800 + j) = (1 : ℚ) * (1 - (j : ℚ) / 1199)) ∧
      (∀ i, 24000 ≤ i → o.val i = 0) :=
  claim_C5_amended (fun x => x) (fun x => x) ⟨24000, fun _ => 1⟩ rfl

/-- Claim C6: with `speed_factor = 1.0` the speed stage of the post-processor
is skipped and (with the other stages off) the input comes back
unchanged; with `speed_factor = 2.0` on a 1000-sample buffer the output
has exactly 500 samples, sample `k` being input sample `2k`
(nearest-index selection, indices at or beyond the input length
discarded). -/
theorem claim_C6 :
    (∀ (tt ss : ℚ → ℚ) (a : Buf) (sr : ℕ),
       process_audio tt ss a sr false false 1 = .ok a) ∧
    (∀ a : Buf, a.len = 1000 →
       ∃ o, speed_up_audio a 2 = .ok o ∧ o.len = 500 ∧
         ∀ k, k < 500 → o.val k = a.val (2 * k)) := by
  constructor
  · exact process_audio_all_off
  · intro a ha
    have hs : (0 : ℚ) < 2 := by norm_num
    have hceil : (⌈(a.len : ℚ) / 2⌉).toNat = 500 := by
      rw [ha, show (⌈((1000 : ℕ) : ℚ) / 2⌉) = (500 : ℤ) by norm_num]
      rfl
    refine ⟨_, speed_up_audio_run a 2 (by norm_num), ?_, ?_⟩
    · show (nearest_indices a.len 2).length = 500
      rw [nearest_indices_length _ _ hs, hceil]
    · intro k hk
      show a.val ((nearest_indices a.len 2).getD k 0) = a.val (2 * k)
      have hb : k < (⌈(a.len : ℚ) / 2⌉).toNat := by
        rw [hceil]
        exact hk
      rw [nearest_indices_getD a.len 2 hs k hb]
      congr 1
      rw [show ((k : ℚ)) * 2 = (((2 * k : ℕ)) : ℚ) by push_cast; ring,
        Int.floor_natCast]
      omega

/-- Witness for C6: the all-off pipeline at speed 1 returns a 7-sample
buffer unchanged, and speeding a 1000-sample ramp buffer up by 2 gives
500 samples with sample 3 = input sample 6. -/
theorem claim_C6_witness :
    process_audio (fun x => x) (fun x => x) ⟨7, fun _ => 5⟩ 24000
      false false 1 = .ok ⟨7, fun _ => 5⟩ ∧
    (∃ o, speed_up_audio ⟨1000, fun i => (i : ℚ)⟩ 2 = .ok o ∧
      o.len = 500 ∧ o.val 3 = 6) := by
  refine ⟨claim_C6.1 _ _ _ _, ?_⟩
  obtain ⟨o, h1, h2, h3⟩ := claim_C6.2 ⟨1000, fun i => (i : ℚ)⟩ rfl
  refine ⟨o, h1, h2, ?_⟩
  have := h3 3 (by norm_num)
  rw [this]
  norm_num

/-- Claim C10: no layer validates `speed_factor` against the documented
`[0.5, 2.0]` range.  (1) For every `speed_factor ≠ 1` the post-processor
hands the smoothed buffer straight to the nearest-index resampler — no
range branch exists.  (2) Every positive factor (e.g. 3.0) is resampled
as-is and succeeds, with length `⌈len/speed_factor⌉` and nearest-index
selection.  (3) Every negative factor is resampled as-is into an empty
selection (`np.arange` with a negative step is empty) — again no
rejection.  (4) The engine operation `generate_speech` likewise branches on
nothing about `speed_factor`: its audio result is exactly the
the result of the post-processor, whatever the factor. -/
theorem claim_C10 :
    (∀ (tt ss : ℚ → ℚ) (a : Buf) (sr : ℕ) (sm : Bool) (sp : ℚ), sp ≠ 1 →
       process_audio tt ss a sr sm false sp =
         speed_up_audio (if sm then smooth_audio a sr else a) sp) ∧
    (∀ (a : Buf) (sp : ℚ), 0 < sp →
       ∃ o, speed_up_audio a sp = .ok o ∧
         o.len = (⌈(a.len : ℚ) / sp⌉).toNat ∧
         ∀ k, k < o.len → o.val k = a.val ((⌊(k : ℚ) * sp⌋).toNat)) ∧
    (∀ (a : Buf) (sp : ℚ), sp < 0 →
       ∃ o, speed_up_audio a sp = .ok o ∧ o.len = 0) ∧
    (∀ (e : TTSEngine) (m : Model) (io : Except String Model)
       (tt ss : ℚ → ℚ) (text voice : String) (sm rb : Bool) (sp : ℚ)
       (audio : Buf),
       e.initialized = true → e.model = some m →
       is_valid_voice voice = true → strip_empty text = false →
       m.generate text voice = .ok audio →
       (generate_speech e io tt ss text voice sm rb sp).2 =
         process_audio tt ss audio 24000 sm rb sp) := by
  refine ⟨?_, ?_, ?_, ?_⟩
  · intro tt ss a sr sm sp hsp
    show (if sp ≠ 1 then
        speed_up_audio (if sm then smooth_audio a sr else a) sp
      else .ok (if sm then smooth_audio a sr else a)) = _
    rw [if_pos hsp]
  · intro a sp hs
    refine ⟨_, speed_up_audio_run a sp (ne_of_gt hs),
      nearest_indices_length a.len sp hs, ?_⟩
    intro k hk
    have hb : k < (⌈(a.len : ℚ) / sp⌉).toNat := by
      rw [← nearest_indices_length a.len sp hs]
      exact hk
    show a.val ((nearest_indices a.len sp).getD k 0) = _
    rw [nearest_indices_getD a.len sp hs k hb]
  · intro a sp hneg
    have hcl : (⌈(a.len : ℚ) / sp⌉).toNat = 0 := by
      have hq : (a.len : ℚ) / sp ≤ 0 :=
        div_nonpos_iff.mpr (Or.inl ⟨Nat.cast_nonneg _, le_of_lt hneg⟩)
      have h0 : (⌈(a.len : ℚ) / sp⌉) ≤ (0 : ℤ) :=
        Int.ceil_le.mpr (by exact_mod_cast hq)
      omega
    refine ⟨_, speed_up_audio_run a sp (ne_of_lt hneg), ?_⟩
    show (nearest_indices a.len sp).length = 0
    unfold nearest_indices arange
    rw [hcl]
    rfl
  · intro e m io tt ss text voice sm rb sp audio hinit hm hv ht hgen
    rcases hp : process_audio tt ss audio 24000 sm rb sp with msg | out
    · simp [generate_speech, hinit, hm, hv, ht, hgen, hp]
    · simp [generate_speech, hinit, hm, hv, ht, hgen, hp]

/-- Witness for C10: concrete runs at the out-of-range factors 3.0 and
-1.0, and a concrete engine pass-through at factor 3.0. -/
theorem claim_C10_witness :
    process_audio (fun x => x) (fun x => x) ⟨10, fun _ => 1⟩ 24000
        false false 3 = speed_up_audio ⟨10, fun _ => 1⟩ 3 ∧
    (∃ o, speed_up_audio ⟨10, fun _ => 1⟩ 3 = .ok o ∧ o.len = 4 ∧
      o.val 2 = 1) ∧
    (∃ o, speed_up_audio ⟨10, fun _ => 1⟩ (-1) = .ok o ∧ o.len = 0) ∧
    (generate_speech ⟨true, some ⟨fun _ _ => .ok ⟨1, fun _ => 0⟩⟩⟩
        (.error "io") (fun x => x) (fun x => x) "hi" "expr-voice-2-f"
        false false 3).2 =
      process_audio (fun x => x) (fun x => x) ⟨1, fun _ => 0⟩ 24000
        false false 3 := by
  refine ⟨?_, ?_, ?_, ?_⟩
  · exact claim_C10.1 (fun x => x) (fun x => x) ⟨10, fun _ => 1⟩ 24000
      false 3 (by norm_num)
  · obtain ⟨o, h1, h2, h3⟩ := claim_C10.2.1 ⟨10, fun _ => 1⟩ 3 (by norm_num)
    have hlen : o.len = 4 := by
      have h4 : (⌈((10 : ℕ) : ℚ) / 3⌉) = (4 : ℤ) := by
        rw [Int.ceil_eq_iff]
        constructor <;> norm_num
      rw [h2]
      show (⌈((10 : ℕ) : ℚ) / 3⌉).toNat = 4
      rw [h4]
      rfl
    exact ⟨o, h1, hlen, h3 2 (by omega)⟩
  · exact claim_C10.2.2.1 ⟨10, fun _ => 1⟩ (-1) (by norm_num)
  · exact claim_C10.2.2.2 ⟨true, some ⟨fun _ _ => .ok ⟨1, fun _ => 0⟩⟩⟩
      ⟨fun _ _ => .ok ⟨1, fun _ => 0⟩⟩ (.error "io") (fun x => x)
      (fun x => x) "hi" "expr-voice-2-f" false false 3 ⟨1, fun _ => 0⟩
      rfl rfl (by decide) (by decide) rfl

lemma normalize_95_peak (m : ℕ) (f : ℕ → ℚ) :
    peakAbs (normalize_95 m f) ≤ 95 / 100 ∧
    (peakAbs (normalize_95 m f) = 95 / 100 ∨
      ∀ j, j < (normalize_95 m f).len → (normalize_95 m f).val j = 0) := by
  unfold normalize_95
  set M : ℚ := ((List.range m).map (fun i => |f i|)).foldr max 0 with hMdef
  by_cases hM : 0 < M
  · rw [if_pos hM]
    have habs : (fun i => |f i / M * (95 / 100)|) =
        ((fun x => (95 / 100) / M * x) ∘ fun i => |f i|) := by
      funext i
      simp only [Function.comp]
      rw [abs_mul, abs_div, abs_of_pos hM,
        abs_of_nonneg (show (0 : ℚ) ≤ 95 / 100 by norm_num)]
      ring
    have hpeak : peakAbs ⟨m, fun i => f i / M * (95 / 100)⟩ = 95 / 100 := by
      show (((List.range m).map (fun i => |f i / M * (95 / 100)|)).foldr
        max 0) = 95 / 100
      rw [habs, ← List.map_map,
        foldr_max_map_mul _ (div_nonneg (by norm_num) (le_of_lt hM)), ← hMdef]
      exact div_mul_cancel₀ _ (ne_of_gt hM)
    exact ⟨le_of_eq hpeak, Or.inl hpeak⟩
  · rw [if_neg hM]
    have hM0 : M = 0 :=
      le_antisymm (not_lt.mp hM) (hMdef ▸ foldr_max_nonneg _)
    have hz : ∀ j, j < m → f j = 0 := by
      intro j hj
      have hmem : |f j| ∈ (List.range m).map (fun i => |f i|) :=
        List.mem_map.mpr ⟨j, List.mem_range.mpr hj, rfl⟩
      have hle := le_foldr_max _ _ hmem
      rw [← hMdef, hM0] at hle
      exact abs_eq_zero.mp (le_antisymm hle (abs_nonneg _))
    constructor
    · show (((List.range m).map (fun i => |f i|)).foldr max 0) ≤ 95 / 100
      rw [← hMdef, hM0]
      norm_num
    · exact Or.inr (fun j hj => hz j hj)

/-- Claim C7: for every non-silent input buffer the distortion effect
succeeds and its output peak absolute amplitude is at most 0.95
(in this exact-arithmetic model the float epsilon is 0); moreover the
output peak is exactly 0.95 — the normalization scales the blend so —
unless the blended signal was identically zero (peak not positive), in
which case the output is identically zero.  `np.tanh` and `np.sin`
are arbitrary here: the bound comes from the normalization step alone. -/
theorem claim_C7 (tt ss : ℚ → ℚ) (a : Buf) (sr : ℕ)
    (h : ∃ i, i < a.len ∧ a.val i ≠ 0) :
    ∃ o, make_robotic tt ss a sr = .ok o ∧
      peakAbs o ≤ 95 / 100 ∧
      (peakAbs o = 95 / 100 ∨ ∀ j, j < o.len → o.val j = 0) := by
  obtain ⟨i0, hi0, _⟩ := h
  have hs : (0 : ℚ) < 92 / 100 := by norm_num
  have hm : (nearest_indices a.len (92 / 100)).length ≠ 0 := by
    rw [nearest_indices_length _ _ hs]
    have hlen : 0 < a.len := by omega
    have hq : (0 : ℚ) < (a.len : ℚ) / (92 / 100) := by
      apply div_pos _ hs
      exact_mod_cast hlen
    have hc := Int.ceil_pos.mpr hq
    omega
  simp only [make_robotic]
  rw [if_neg hm]
  exact ⟨_, rfl, (normalize_95_peak _ _).1, (normalize_95_peak _ _).2⟩

/-- Witness for C7 at the one-sample buffer `[1]`. -/
theorem claim_C7_witness :
    ∃ o, make_robotic (fun x => x) (fun x => x) ⟨1, fun _ => 1⟩ 24000 =
        .ok o ∧
      peakAbs o ≤ 95 / 100 ∧
      (peakAbs o = 95 / 100 ∨ ∀ j, j < o.len → o.val j = 0) :=
  claim_C7 (fun x => x) (fun x => x) ⟨1, fun _ => 1⟩ 24000
    ⟨0, Nat.zero_lt_one, one_ne_zero⟩

lemma tts_prefix_eq (b : Bool) (msg : String) :
    ("TTS " ++ (if b then "Success" else "Failed") ++ ": " ++ msg) =
      (if b then "TTS Success: " else "TTS Failed: ") ++ msg := by
  cases b
  · show ("TTS " ++ "Failed" ++ ": " ++ msg) = "TTS Failed: " ++ msg
    rw [show (("TTS " ++ "Failed") ++ ": ") = "TTS Failed: " from by decide]
  · show ("TTS " ++ "Success" ++ ": " ++ msg) = "TTS Success: " ++ msg
    rw [show (("TTS " ++ "Success") ++ ": ") = "TTS Success: " from by decide]

/-- Claim C2: whenever the whitespace-split word count exceeds 100, the
speak tool call returns the rejection result reporting the exact
provided word count, with the engine state unchanged.  The right-hand
side mentions neither the synthesizer construction oracle, the model,
nor the playback oracle, so the external synthesizer is never invoked
on such a call. -/
theorem claim_C2 (e : TTSEngine) (io : Except String Model)
    (pa : Buf → SpeakResult) (tt ss : ℚ → ℚ) (text voice : String)
    (rb : Bool) (sp : ℚ) (hw : 100 < count_words text) :
    call_tool_speak e io pa tt ss text voice rb sp =
      (e, "Error: Text exceeds 100 words limit (provided: " ++
        toString (count_words text) ++ " words)") := by
  simp only [call_tool_speak]
  rw [if_pos hw]

set_option maxRecDepth 8000 in
/-- Witness for C2 at a concrete 101-word text. -/
theorem claim_C2_witness :
    call_tool_speak ⟨false, none⟩ (.error "no model")
      (fun _ => ⟨true, "ok"⟩) (fun x => x) (fun x => x)
      (String.intercalate " " (List.replicate 101 "a")) "expr-voice-2-f"
      false 1 =
      (⟨false, none⟩,
       "Error: Text exceeds 100 words limit (provided: 101 words)") := by
  have h := claim_C2 ⟨false, none⟩ (.error "no model")
    (fun _ => ⟨true, "ok"⟩) (fun x => x) (fun x => x)
    (String.intercalate " " (List.replicate 101 "a")) "expr-voice-2-f"
    false 1 (by decide)
  rw [show count_words (String.intercalate " " (List.replicate 101 "a")) =
    101 from by decide] at h
  rw [h]
  rw [show "Error: Text exceeds 100 words limit (provided: " ++
      toString (101 : ℕ) ++ " words)" =
      "Error: Text exceeds 100 words limit (provided: 101 words)"
    from by decide]

/-- Claim C3: for every text of at most 100 words with non-blank
content, the speak tool call returns a structured result — the engine
unavailable rejection, a `TTS Success: …` result, or a `TTS Failed: …`
result — and its message is never the empty string.  The modelled call
is a total function: every modelled exception is caught and turned into
one of these structured results. -/
theorem claim_C3 (e : TTSEngine) (io : Except String Model)
    (pa : Buf → SpeakResult) (tt ss : ℚ → ℚ) (text voice : String)
    (rb : Bool) (sp : ℚ) (hw : count_words text ≤ 100)
    (hb : strip_empty text = false) :
    ((call_tool_speak e io pa tt ss text voice rb sp).2 =
        "Error: TTS engine is not available. Please check that espeak is installed and accessible." ∨
      (∃ msg, (call_tool_speak e io pa tt ss text voice rb sp).2 =
        "TTS Success: " ++ msg) ∨
      (∃ msg, (call_tool_speak e io pa tt ss text voice rb sp).2 =
        "TTS Failed: " ++ msg)) ∧
    (call_tool_speak e io pa tt ss text voice rb sp).2 ≠ "" := by
  simp only [call_tool_speak]
  rw [if_neg (show ¬ 100 < count_words text by omega),
    if_neg (show ¬ strip_empty text = true by simp [hb])]
  by_cases hi : e.initialized = true
  · rw [if_neg (show ¬ ¬ e.initialized = true by simp [hi])]
    rcases hsp : speak e io pa tt ss text voice true true rb sp with ⟨e1, r⟩
    rcases r with ⟨st, msg⟩
    dsimp only
    rw [tts_prefix_eq]
    cases st
    · refine ⟨Or.inr (Or.inr ⟨msg, rfl⟩), ?_⟩
      exact append_ne_empty_left _ _ (by decide)
    · refine ⟨Or.inr (Or.inl ⟨msg, rfl⟩), ?_⟩
      exact append_ne_empty_left _ _ (by decide)
  · rw [if_pos hi]
    exact ⟨Or.inl rfl, by dsimp only; decide⟩

/-- Witness for C3 at a concrete call (engine not initialized). -/
theorem claim_C3_witness :
    ((call_tool_speak ⟨false, none⟩ (.error "x") (fun _ => ⟨true, "ok"⟩)
        (fun y => y) (fun y => y) "hi" "expr-voice-2-f" false 1).2 =
        "Error: TTS engine is not available. Please check that espeak is installed and accessible." ∨
      (∃ msg, (call_tool_speak ⟨false, none⟩ (.error "x")
          (fun _ => ⟨true, "ok"⟩) (fun y => y) (fun y => y) "hi"
          "expr-voice-2-f" false 1).2 = "TTS Success: " ++ msg) ∨
      (∃ msg, (call_tool_speak ⟨false, none⟩ (.error "x")
          (fun _ => ⟨true, "ok"⟩) (fun y => y) (fun y => y) "hi"
          "expr-voice-2-f" false 1).2 = "TTS Failed: " ++ msg)) ∧
    (call_tool_speak ⟨false, none⟩ (.error "x") (fun _ => ⟨true, "ok"⟩)
        (fun y => y) (fun y => y) "hi" "expr-voice-2-f" false 1).2 ≠ "" :=
  claim_C3 ⟨false, none⟩ (.error "x") (fun _ => ⟨true, "ok"⟩)
    (fun y => y) (fun y => y) "hi" "expr-voice-2-f" false 1
    (by decide) (by decide)

/-- Claim C1, counterexample to the claim as stated: the claim says an
invalid voice id is rejected with a voice error *regardless of engine
state*, with voice validity checked before engine readiness.  On a call
with the invalid voice "bogus-voice" and an uninitialized engine the
handler returns the engine-unavailable error, not the voice error: the
server checks `engine._initialized` before `engine.speak` ever
validates the voice. -/
theorem claim_C1_counterexample :
    (call_tool_speak ⟨false, none⟩ (.error "no model")
        (fun _ => ⟨true, "ok"⟩) (fun x => x) (fun x => x) "hello"
        "bogus-voice" false 1).2 =
      "Error: TTS engine is not available. Please check that espeak is installed and accessible." ∧
    (call_tool_speak ⟨false, none⟩ (.error "no model")
        (fun _ => ⟨true, "ok"⟩) (fun x => x) (fun x => x) "hello"
        "bogus-voice" false 1).2 ≠
      "TTS Failed: Speech generation failed: Invalid voice: bogus-voice" :=
  ⟨rfl, by decide⟩

/-- Claim C1 (amended): validation runs in the order word-count limit,
then emptiness, then engine readiness (in the tool handler), then voice
validity (inside the engine, before synthesis): (1) over-long text is
rejected first, whatever the voice or engine state; (2) blank text is
rejected next; (3) with the engine uninitialized the call fails with
the engine-unavailable error whatever the voice; (4) with the engine
initialized an invalid voice is rejected with the voice error before
the synthesizer is touched (the result does not depend on the model
handle or any oracle). -/
theorem claim_C1_amended (e : TTSEngine) (io : Except String Model)
    (pa : Buf → SpeakResult) (tt ss : ℚ → ℚ) (text voice : String)
    (rb : Bool) (sp : ℚ) :
    (100 < count_words text →
      call_tool_speak e io pa tt ss text voice rb sp =
        (e, "Error: Text exceeds 100 words limit (provided: " ++
          toString (count_words text) ++ " words)")) ∧
    (count_words text ≤ 100 → strip_empty text = true →
      call_tool_speak e io pa tt ss text voice rb sp =
        (e, "Error: Text cannot be empty")) ∧
    (count_words text ≤ 100 → strip_empty text = false →
      e.initialized = false →
      call_tool_speak e io pa tt ss text voice rb sp =
        (e, "Error: TTS engine is not available. Please check that espeak is installed and accessible.")) ∧
    (count_words text ≤ 100 → strip_empty text = false →
      e.initialized = true → is_valid_voice voice = false →
      call_tool_speak e io pa tt ss text voice rb sp =
        (e, "TTS Failed: Speech generation failed: Invalid voice: " ++
          voice)) := by
  refine ⟨?_, ?_, ?_, ?_⟩
  · intro hw
    simp only [call_tool_speak]
    rw [if_pos hw]
  · intro hw hb
    simp only [call_tool_speak]
    rw [if_neg (show ¬ 100 < count_words text by omega), if_pos hb]
  · intro hw hb hi
    simp only [call_tool_speak]
    rw [if_neg (show ¬ 100 < count_words text by omega),
      if_neg (show ¬ strip_empty text = true by simp [hb]),
      if_pos (show ¬ e.initialized = true by simp [hi])]
  · intro hw hb hi hv
    have hgs := generate_speech_ready_invalid_voice e io tt ss text voice
      true rb sp hi hv
    have hsp := speak_eq_of_generate_error e e io pa tt ss text voice
      true true rb sp ("Invalid voice: " ++ voice) hgs
    simp only [call_tool_speak]
    rw [if_neg (show ¬ 100 < count_words text by omega),
      if_neg (show ¬ strip_empty text = true by simp [hb]),
      if_neg (show ¬ ¬ e.initialized = true by simp [hi]), hsp]
    dsimp only
    rw [tts_prefix_eq]
    show (e, "TTS Failed: " ++
      ("Speech generation failed: " ++ ("Invalid voice: " ++ voice))) = _
    rw [← String.append_assoc,
      show "TTS Failed: " ++ "Speech generation failed: " =
        "TTS Failed: Speech generation failed: " from by decide,
      ← String.append_assoc,
      show "TTS Failed: Speech generation failed: " ++ "Invalid voice: " =
        "TTS Failed: Speech generation failed: Invalid voice: "
        from by decide]

/-- Witness for C1 (amended), parts 3 and 4: same invalid voice, the
uninitialized engine answers with the engine error, the initialized
engine answers with the voice error. -/
theorem claim_C1_amended_witness :
    call_tool_speak ⟨false, none⟩ (.error "no model")
      (fun _ => ⟨true, "ok"⟩) (fun x => x) (fun x => x) "hello"
      "bad-voice" false 1 =
      (⟨false, none⟩,
       "Error: TTS engine is not available. Please check that espeak is installed and accessible.") ∧
    call_tool_speak ⟨true, none⟩ (.error "no model")
      (fun _ => ⟨true, "ok"⟩) (fun x => x) (fun x => x) "hello"
      "bad-voice" false 1 =
      (⟨true, none⟩,
       "TTS Failed: Speech generation failed: Invalid voice: bad-voice") := by
  constructor
  · exact (claim_C1_amended ⟨false, none⟩ (.error "no model")
      (fun _ => ⟨true, "ok"⟩) (fun x => x) (fun x => x) "hello"
      "bad-voice" false 1).2.2.1 (by decide) (by decide) rfl
  · have h := (claim_C1_amended ⟨true, none⟩ (.error "no model")
      (fun _ => ⟨true, "ok"⟩) (fun x => x) (fun x => x) "hello"
      "bad-voice" false 1).2.2.2 (by decide) (by decide) rfl (by decide)
    rw [h]
    rw [show "TTS Failed: Speech generation failed: Invalid voice: " ++
        "bad-voice" =
        "TTS Failed: Speech generation failed: Invalid voice: bad-voice"
      from by decide]

/-- Claim C8: when the synthesizer raises during a speak call, the
exception is caught and reported as a structured failure carrying the
message, and the engine state is returned exactly as it was — still
initialized, same model handle — so a later call through the same
model (here with playback off) succeeds without re-initialization (the
result does not depend on the initialization oracle). -/
theorem claim_C8 (e : TTSEngine) (m : Model) (io : Except String Model)
    (pa : Buf → SpeakResult) (tt ss : ℚ → ℚ) (text voice : String)
    (pl sm rb : Bool) (sp : ℚ) (msg : String)
    (hinit : e.initialized = true) (hm : e.model = some m)
    (hv : is_valid_voice voice = true) (ht : strip_empty text = false)
    (hgen : m.generate text voice = .error msg) :
    speak e io pa tt ss text voice pl sm rb sp =
      (e, ⟨false, "Speech generation failed: " ++ msg⟩) ∧
    (∀ (text2 : String) (audio out : Buf),
      strip_empty text2 = false →
      m.generate text2 voice = .ok audio →
      process_audio tt ss audio 24000 sm rb sp = .ok out →
      speak e io pa tt ss text2 voice false sm rb sp =
        (e, ⟨true, "Speech generated successfully (playback disabled)"⟩)) := by
  constructor
  · exact speak_eq_of_generate_error e e io pa tt ss text voice pl sm rb
      sp msg (generate_speech_ready_error e m io tt ss text voice sm rb
        sp msg hinit hm hv ht hgen)
  · intro text2 audio out ht2 hgen2 hproc
    exact speak_eq_of_generate_ok_noplay e e io pa tt ss text2 voice sm
      rb sp out (generate_speech_ready_ok e m io tt ss text2 voice sm rb
        sp audio out hinit hm hv ht2 hgen2 hproc)

/-- Witness for C8 with a model that raises on the text "boom" and
succeeds on other texts. -/
theorem claim_C8_witness :
    speak ⟨true, some ⟨fun t _ => if t = "boom" then .error "synth down"
        else .ok ⟨1, fun _ => 0⟩⟩⟩ (.error "io")
      (fun _ => ⟨true, "played"⟩) (fun x => x) (fun x => x) "boom"
      "expr-voice-2-f" false false false 1 =
      (⟨true, some ⟨fun t _ => if t = "boom" then .error "synth down"
        else .ok ⟨1, fun _ => 0⟩⟩⟩,
       ⟨false, "Speech generation failed: synth down"⟩) ∧
    speak ⟨true, some ⟨fun t _ => if t = "boom" then .error "synth down"
        else .ok ⟨1, fun _ => 0⟩⟩⟩ (.error "io")
      (fun _ => ⟨true, "played"⟩) (fun x => x) (fun x => x) "later"
      "expr-voice-2-f" false false false 1 =
      (⟨true, some ⟨fun t _ => if t = "boom" then .error "synth down"
        else .ok ⟨1, fun _ => 0⟩⟩⟩,
       ⟨true, "Speech generated successfully (playback disabled)"⟩) := by
  have h := claim_C8
    ⟨true, some ⟨fun t _ => if t = "boom" then .error "synth down"
      else .ok ⟨1, fun _ => 0⟩⟩⟩
    ⟨fun t _ => if t = "boom" then .error "synth down"
      else .ok ⟨1, fun _ => 0⟩⟩
    (.error "io") (fun _ => ⟨true, "played"⟩) (fun x => x) (fun x => x)
    "boom" "expr-voice-2-f" false false false 1 "synth down" rfl rfl
    (by decide) (by decide) rfl
  constructor
  · rw [h.1]
    rw [show "Speech generation failed: " ++ "synth down" =
      "Speech generation failed: synth down" from by decide]
  · exact h.2 "later" ⟨1, fun _ => 0⟩ ⟨1, fun _ => 0⟩ (by decide) rfl
      (process_audio_all_off _ _ _ _)

/-- Claim C9: `cleanup` is idempotent — a second consecutive call
leaves the engine state exactly as the first left it — and a speak
call made after `cleanup` re-initializes the engine (here through a
successful constructor outcome) and succeeds rather than failing
permanently. -/
theorem claim_C9 :
    (∀ e : TTSEngine, cleanup (cleanup e) = cleanup e) ∧
    (∀ (e : TTSEngine) (m : Model) (pa : Buf → SpeakResult)
       (tt ss : ℚ → ℚ) (text voice : String) (sm rb : Bool) (sp : ℚ)
       (audio out : Buf),
       is_valid_voice voice = true → strip_empty text = false →
       m.generate text voice = .ok audio →
       process_audio tt ss audio 24000 sm rb sp = .ok out →
       speak (cleanup e) (.ok m) pa tt ss text voice false sm rb sp =
         (⟨true, some m⟩,
          ⟨true, "Speech generated successfully (playback disabled)"⟩)) := by
  refine ⟨cleanup_cleanup, ?_⟩
  intro e m pa tt ss text voice sm rb sp audio out hv ht hgen hproc
  exact speak_eq_of_generate_ok_noplay (cleanup e) ⟨true, some m⟩ (.ok m)
    pa tt ss text voice sm rb sp out
    (generate_speech_init_ok (cleanup e) m tt ss text voice sm rb sp
      audio out (cleanup_not_ready e) hv ht hgen hproc)

/-- Witness for C9 on a concrete engine and model. -/
theorem claim_C9_witness :
    cleanup (cleanup ⟨true, none⟩) = cleanup ⟨true, none⟩ ∧
    speak (cleanup ⟨true, none⟩) (.ok ⟨fun _ _ => .ok ⟨1, fun _ => 0⟩⟩)
      (fun _ => ⟨true, "played"⟩) (fun x => x) (fun x => x) "hi"
      "expr-voice-2-f" false false false 1 =
      (⟨true, some ⟨fun _ _ => .ok ⟨1, fun _ => 0⟩⟩⟩,
       ⟨true, "Speech generated successfully (playback disabled)"⟩) := by
  refine ⟨claim_C9.1 ⟨true, none⟩, ?_⟩
  exact claim_C9.2 ⟨true, none⟩ ⟨fun _ _ => .ok ⟨1, fun _ => 0⟩⟩
    (fun _ => ⟨true, "played"⟩) (fun x => x) (fun x => x) "hi"
    "expr-voice-2-f" false false 1 ⟨1, fun _ => 0⟩ ⟨1, fun _ => 0⟩
    (by decide) (by decide) rfl (process_audio_all_off _ _ _ _)
